import Mathlib

/-!
Verification development for the GREGTHEBARBERAI repository.

The source (src/types.ts) is a single-page React application around two
remote calls to a generative-AI provider.  This file gives a shallow
embedding of its data model and of the functions the specification's
claims are about:

* the shared data model (`HairstyleRecommendation`, `AnalysisResult`,
  `GeneratedStyle`, `AppStep`);
* `handleFile` (file-based acquisition and its invalid-type rejection);
* `capturePhoto`, split into its crop geometry (`capturePhotoCrop`) and
  its camera-resource effect (`capturePhotoCamera`), together with
  `startCamera` and the camera-view dismiss button;
* `handleApiError` (error classification by message markers);
* `processImage` (the orchestrator), both as a pure state-in/state-out
  function over the outcomes of the remote calls and as an event trace
  (`processImageCallTrace`, `applyEvent`/`appRun`) that makes the
  issue/completion ordering and the interleaving with `reset` explicit;
* the post-response logic of `analyzePhoto` (`analyzePhotoResult`)
  together with a concrete executable model of JSON.parse and of the
  response schema declared in the request configuration;
* the result extraction of `transformHairstyle`
  (`transformHairstyleResult`).

Machine integers do not occur; the only arithmetic is the crop geometry,
modelled over ℚ because JavaScript computes `(videoWidth - size) / 2`
with exact halves.
-/

namespace GregBarber

/-! ## Data model (src/types.ts) -/

/-- TrendLevel: the string-literal union 'Classic' | 'Trending' | 'Bold'. -/
inductive TrendLevel where
  | Classic
  | Trending
  | Bold
deriving DecidableEq, Repr

/-- HairstyleRecommendation, as in src/types.ts. -/
structure HairstyleRecommendation where
  id : String
  name : String
  description : String
  whyItWorks : String
  trendLevel : TrendLevel
deriving DecidableEq, Repr

/-- AnalysisResult, as in src/types.ts. -/
structure AnalysisResult where
  faceShape : String
  hairTexture : String
  recommendations : List HairstyleRecommendation
deriving DecidableEq, Repr

/-- GeneratedStyle, as in src/types.ts. -/
structure GeneratedStyle where
  style : HairstyleRecommendation
  imageUrl : String
deriving DecidableEq, Repr

/-- AppStep, as in src/types.ts. -/
inductive AppStep where
  | UPLOAD
  | ANALYZING
  | GENERATING
  | RESULT
deriving DecidableEq, Repr

/-- The React component state of `App` (the useState hooks `step`,
`image`, `analysis`, `results`, `error`, `loadingMsgIdx`). -/
structure AppState where
  step : AppStep
  image : Option String
  analysis : Option AnalysisResult
  results : List GeneratedStyle
  error : Option String
  loadingMsgIdx : Nat
deriving DecidableEq, Repr

/-- The initial values of the useState hooks. -/
def initialState : AppState :=
  { step := AppStep.UPLOAD, image := none, analysis := none, results := [],
    error := none, loadingMsgIdx := 0 }

/-- The state written by `reset()`: it sets every field back to its
initial value, so it is a constant. -/
def resetState : AppState := initialState

/-! ## String helpers

`String.prototype.includes` and `String.prototype.startsWith` of
JavaScript, modelled on character lists. -/

/-- `listStartsWith needle hay` is true when `needle` is a leading
segment of `hay`. -/
def listStartsWith : List Char → List Char → Bool
  | [], _ => true
  | _ :: _, [] => false
  | n :: ns, h :: hs => if n = h then listStartsWith ns hs else false

/-- `listHasInfix needle hay` is true when `needle` occurs contiguously
inside `hay`. -/
def listHasInfix (needle : List Char) : List Char → Bool
  | [] => needle.isEmpty
  | c :: hs => listStartsWith needle (c :: hs) || listHasInfix needle hs

/-- JavaScript `s.includes(sub)`. -/
def strIncludes (s sub : String) : Bool :=
  listHasInfix sub.toList s.toList

/-- JavaScript `s.startsWith(pre)`. -/
def strStarts (s pre : String) : Bool :=
  listStartsWith pre.toList s.toList

/-! ## Error messages (string literals of the source) -/

/-- The credential error message set by `handleApiError`. -/
def credentialErrorMsg : String :=
  "Il servizio richiede una chiave API valida. Per favore, seleziona la tua chiave."

/-- The generic error message set by `handleApiError`. -/
def genericErrorMsg : String :=
  "I nostri stilisti hanno riscontrato un problema tecnico. Riprova tra poco."

/-- The message of `handleFile`'s invalid-file rejection. -/
def invalidFileMsg : String := "Please upload a valid image file."

/-- The message of the error thrown by `processImage` when the filtered
generation results are empty. -/
def couldNotGenerateMsg : String := "Could not generate styles."

/-! ## handleApiError (src/types.ts lines 239-253) -/

/-- The credential-marker test of `handleApiError`:
`errorMessage.includes("Requested entity was not found") ||
 errorMessage.includes("API_KEY") || errorMessage.includes("403")`. -/
def isCredentialFailure (msg : String) : Bool :=
  strIncludes msg "Requested entity was not found" ||
  strIncludes msg "API_KEY" || strIncludes msg "403"

/-- `handleApiError`.  `aistudioAvailable` models whether the host
provides `window.aistudio.openSelectKey`; the returned Bool records
whether that remediation call was made.  Both branches end with
`setStep(AppStep.UPLOAD)`. -/
def handleApiError (s : AppState) (msg : String) (aistudioAvailable : Bool) :
    AppState × Bool :=
  if isCredentialFailure msg then
    ({ s with error := some credentialErrorMsg, step := AppStep.UPLOAD },
     aistudioAvailable)
  else
    ({ s with error := some genericErrorMsg, step := AppStep.UPLOAD }, false)

/-! ## handleFile (src/types.ts lines 184-196) -/

/-- The part of a browser `File` value the code inspects. -/
structure JsFile where
  type : String
deriving DecidableEq, Repr

/-- The asynchronous work `handleFile` may start: reading the file as a
data URI and, in `onloadend`, setting the image and calling
`processImage`. -/
inductive AcquisitionAction where
  | startDecodeAndProcess
deriving DecidableEq, Repr

/-- `handleFile`: a file whose declared type does not start with
`image/` only sets the error message and returns; otherwise the
FileReader decode (followed by `setImage` and `processImage`) is
started.  No other state field is touched synchronously. -/
def handleFile (s : AppState) (f : JsFile) : AppState × List AcquisitionAction :=
  if ¬ (strStarts f.type "image/") then
    ({ s with error := some invalidFileMsg }, [])
  else
    (s, [AcquisitionAction.startDecodeAndProcess])

/-! ## capturePhoto geometry (src/types.ts lines 213-237) -/

/-- The observable description of the canvas draw and encode performed
by `capturePhoto`: the source crop rectangle, the output dimensions and
the encoding arguments of `toDataURL('image/jpeg', 0.9)`.  The crop
origin is rational because JavaScript halves exactly. -/
structure CaptureSpec where
  cropX : ℚ
  cropY : ℚ
  cropSize : ℕ
  outWidth : ℕ
  outHeight : ℕ
  format : String
  quality : ℚ
deriving DecidableEq, Repr

/-- The geometry of `capturePhoto` for a video of the given intrinsic
dimensions: `size = Math.min(videoWidth, videoHeight)`,
`startX = (videoWidth - size) / 2`, `startY = (videoHeight - size) / 2`,
canvas of `size × size`, encoded with `toDataURL('image/jpeg', 0.9)`. -/
def capturePhotoCrop (videoWidth videoHeight : ℕ) : CaptureSpec :=
  let size := min videoWidth videoHeight
  { cropX := ((videoWidth : ℚ) - (size : ℚ)) / 2
    cropY := ((videoHeight : ℚ) - (size : ℚ)) / 2
    cropSize := size
    outWidth := size
    outHeight := size
    format := "image/jpeg"
    quality := 9 / 10 }

/-! ## Camera resource state (startCamera, capturePhoto, dismiss button) -/

/-- The camera-relevant state: the `showCamera` flag and whether the
acquired media stream's tracks are still running. -/
structure CameraState where
  showCamera : Bool
  streamTracksLive : Bool
deriving DecidableEq, Repr

/-- `startCamera`: sets `showCamera` to true, then awaits
`getUserMedia`; on success the stream is attached to the video element
(tracks live), on failure the error is reported and `showCamera` is set
back to false. -/
def startCamera (c : CameraState) (granted : Bool) : CameraState :=
  if granted then { showCamera := true, streamTracksLive := true }
  else { c with showCamera := false }

/-- The camera-resource effect of `capturePhoto`: if a stream is
attached, all its tracks are stopped; then `setShowCamera(false)`. -/
def capturePhotoCamera (c : CameraState) : CameraState :=
  if c.streamTracksLive then { showCamera := false, streamTracksLive := false }
  else { c with showCamera := false }

/-- The camera-view dismiss button (src/types.ts line 424): its onClick
handler is exactly `setShowCamera(false)`; the stream is not touched. -/
def dismissCameraView (c : CameraState) : CameraState :=
  { c with showCamera := false }

/-! ## processImage (src/types.ts lines 255-284), pure form

The remote calls are the suspension points; their outcomes are passed in
as values: `analysisOutcome` is the settled result of
`analyzePhoto(base64)` and `synth rec` the settled result of
`transformHairstyle(base64, rec.name)` for each recommendation. -/

/-- Whether an `Except` is a success. -/
def exceptOk {ε α : Type} : Except ε α → Bool
  | Except.ok _ => true
  | Except.error _ => false

/-- The fan-out and aggregation of `processImage`: one promise per
recommendation, each resolving to the `GeneratedStyle` on success and to
`null` on failure, then `(await Promise.all(...)).filter(r => r !== null)`.
`Promise.all` preserves the order of the mapped list. -/
def runSynthesis (synth : HairstyleRecommendation → Except String String)
    (recs : List HairstyleRecommendation) : List GeneratedStyle :=
  (recs.map fun rec =>
    match synth rec with
    | Except.ok url => some { style := rec, imageUrl := url }
    | Except.error _ => none).filterMap id

/-- The number of recommendations whose synthesis call succeeds. -/
def countSuccess (synth : HairstyleRecommendation → Except String String)
    (recs : List HairstyleRecommendation) : Nat :=
  (recs.filter fun r => exceptOk (synth r)).length

/-- `processImage`, as the state transformer it performs once all its
awaited calls have settled: clear the error and enter ANALYZING; on
analysis failure, `handleApiError`; on success record the analysis,
enter GENERATING, aggregate the synthesis outcomes; an empty aggregate
throws `couldNotGenerateMsg` into the same catch, otherwise the results
are stored and the step becomes RESULT. -/
def processImage (s : AppState)
    (analysisOutcome : Except String AnalysisResult)
    (synth : HairstyleRecommendation → Except String String)
    (aistudioAvailable : Bool) : AppState :=
  let s1 : AppState := { s with error := none, step := AppStep.ANALYZING }
  match analysisOutcome with
  | Except.error msg => (handleApiError s1 msg aistudioAvailable).1
  | Except.ok a =>
    let s2 : AppState := { s1 with analysis := some a, step := AppStep.GENERATING }
    let generatedResults := runSynthesis synth a.recommendations
    if generatedResults.length = 0 then
      (handleApiError s2 couldNotGenerateMsg aistudioAvailable).1
    else
      { s2 with results := generatedResults, step := AppStep.RESULT }

/-! ## processImage as a trace of remote-call events

Used for the issue/completion ordering of C5: the synthesis fan-out is
built from `analysisResult.recommendations`, so it can only happen after
the `await analyzePhoto(base64)` has completed. -/

/-- Remote-call events of one `processImage` run, in program order:
the analysis call is issued, then settles, and only then (and only on
success) the synthesis calls are issued, one per recommendation. -/
inductive CallEvent where
  | analysisIssue (image : String)
  | analysisDone (outcome : Except String AnalysisResult)
  | synthIssue (image : String) (styleName : String)

/-- Whether an event is the issuance of a synthesis call. -/
def isSynthIssue : CallEvent → Bool
  | CallEvent.synthIssue _ _ => true
  | _ => false

/-- The remote-call trace of `processImage base64` once the analysis
call settles with `outcome`: issue the analysis call, await it, and on
success map over the recommendations issuing one
`transformHairstyle(base64, rec.name)` each; on failure the catch runs
and no synthesis call is issued. -/
def processImageCallTrace (img : String)
    (outcome : Except String AnalysisResult) : List CallEvent :=
  CallEvent.analysisIssue img :: CallEvent.analysisDone outcome ::
    (match outcome with
     | Except.ok a => a.recommendations.map fun rec => CallEvent.synthIssue img rec.name
     | Except.error _ => [])

/-! ## Session events and interleaving with reset

`processImage` is an async function: between its awaits, control can
return to the UI, where `reset` may run.  Each resumption applies its
state writes unconditionally — the source carries no run identifier or
staleness guard — so a resumption of a run started before a `reset`
still writes when it arrives afterwards.  The events below are exactly
the synchronous write bursts of the source. -/

/-- A state-writing event: the synchronous segments of `processImage`
(entry, analysis resumption on success or failure, the join resumption
carrying the per-call outcomes of `Promise.all`) and the `reset` click. -/
inductive AppEvent where
  | runStart
  | runAnalysisOk (a : AnalysisResult)
  | runAnalysisErr (msg : String)
  | runJoin (outcomes : List (Option GeneratedStyle))
  | resetClick

/-- Apply one event's writes, exactly as the source does — with no
staleness check anywhere. -/
def applyEvent (s : AppState) : AppEvent → AppState
  | AppEvent.runStart => { s with error := none, step := AppStep.ANALYZING }
  | AppEvent.runAnalysisOk a => { s with analysis := some a, step := AppStep.GENERATING }
  | AppEvent.runAnalysisErr msg => (handleApiError s msg false).1
  | AppEvent.runJoin outcomes =>
      let generatedResults := outcomes.filterMap id
      if generatedResults.length = 0 then
        (handleApiError s couldNotGenerateMsg false).1
      else
        { s with results := generatedResults, step := AppStep.RESULT }
  | AppEvent.resetClick => resetState

/-- Run a sequence of interleaved events from a state. -/
def appRun (s : AppState) (evs : List AppEvent) : AppState :=
  evs.foldl applyEvent s

/-! ## transformHairstyle result extraction (src/types.ts lines 119-124) -/

/-- An inline-data part of a provider response: the declared media type
and the base64 payload. -/
structure InlineData where
  mimeType : String
  data : String
deriving DecidableEq, Repr

/-- One part of a candidate's content. -/
structure ResponsePart where
  inlineData : Option InlineData
deriving DecidableEq, Repr

/-- A candidate's content: its list of parts. -/
structure ResponseContent where
  parts : List ResponsePart
deriving DecidableEq, Repr

/-- One response candidate; `content` is optional in the SDK. -/
structure ResponseCandidate where
  content : Option ResponseContent
deriving DecidableEq, Repr

/-- The response shape `transformHairstyle` inspects:
`response.candidates?.[0]?.content?.parts`. -/
structure GenerateContentResponse where
  candidates : List ResponseCandidate
deriving DecidableEq, Repr

/-- `response.candidates?.[0]?.content?.parts.find(p => p.inlineData)`. -/
def firstInlinePart (resp : GenerateContentResponse) : Option ResponsePart :=
  (resp.candidates.head?.bind fun c => c.content).bind fun c =>
    c.parts.find? fun p => p.inlineData.isSome

/-- The tail of `transformHairstyle`: if a part with inline data was
found, return the fixed `data:image/png;base64,` label concatenated
with its payload — the part's own `mimeType` is never consulted —
otherwise throw the visualizer error. -/
def transformHairstyleResult (resp : GenerateContentResponse) : Except String String :=
  match firstInlinePart resp with
  | some p =>
    match p.inlineData with
    | some d => Except.ok ("data:image/png;base64," ++ d.data)
    | none => Except.error "Visualizer engine error: Failed to generate stylized image."
  | none => Except.error "Visualizer engine error: Failed to generate stylized image."

/-! ## analyzePhoto response handling (src/types.ts lines 85-91)

`analyzePhoto` awaits the provider call and then runs
```
try {
  const text = response.text;
  if (!text) throw new Error("Empty response from AI engine.");
  return JSON.parse(text) as AnalysisResult;
} catch (e) {
  throw new Error("Analysis failed to parse: " + (e as Error).message);
}
```
`JSON.parse` is library behaviour outside the repository; a concrete
executable model of it is given below, together with a decidable check
implementing the `responseSchema` the request declares (object with
string `faceShape`, string `hairTexture`, and `recommendations` an
array of objects with string `id`, `name`, `description`, `whyItWorks`
and `trendLevel` one of Classic/Trending/Bold). -/

/-- JSON values. -/
inductive Json where
  | str (s : String)
  | num (n : Int)
  | bool (b : Bool)
  | null
  | arr (xs : List Json)
  | obj (fields : List (String × Json))

/-- The double-quote character. -/
def quoteChar : Char := Char.ofNat 34

/-- The backslash character. -/
def backslashChar : Char := Char.ofNat 92

/-- The opening curly-bracket character. -/
def lbraceChar : Char := Char.ofNat 123

/-- The closing curly-bracket character. -/
def rbraceChar : Char := Char.ofNat 125

/-- Skip JSON whitespace. -/
def jskipWs : List Char → List Char
  | [] => []
  | c :: cs =>
    if c = ' ' ∨ c = Char.ofNat 9 ∨ c = Char.ofNat 10 ∨ c = Char.ofNat 13 then
      jskipWs cs
    else c :: cs

/-- Expect the given literal characters at the head of the input. -/
def expectChars : List Char → List Char → Option (List Char)
  | [], input => some input
  | _ :: _, [] => none
  | e :: es, c :: cs => if c = e then expectChars es cs else none

/-- Decode a single-character JSON escape (the common ones). -/
def escChar (e : Char) : Option Char :=
  if e = quoteChar then some quoteChar
  else if e = backslashChar then some backslashChar
  else if e = '/' then some '/'
  else if e = 'n' then some (Char.ofNat 10)
  else if e = 't' then some (Char.ofNat 9)
  else if e = 'r' then some (Char.ofNat 13)
  else none

/-- Read a JSON string body (after the opening quote), returning the
decoded string and the input after the closing quote. -/
def jparseStrBody : List Char → Option (String × List Char)
  | [] => none
  | c :: cs =>
    if c = quoteChar then some ("", cs)
    else if c = backslashChar then
      match cs with
      | [] => none
      | e :: cs2 =>
        match escChar e with
        | none => none
        | some d => (jparseStrBody cs2).map fun sr => (String.mk (d :: sr.1.toList), sr.2)
    else (jparseStrBody cs).map fun sr => (String.mk (c :: sr.1.toList), sr.2)

/-- The numeric value of a digit string. -/
def digitsVal (ds : List Char) : Nat :=
  ds.foldl (fun acc c => acc * 10 + (c.toNat - 48)) 0

/-- Split the longest leading run of digits from the input. -/
def jparseDigits : List Char → List Char × List Char
  | [] => ([], [])
  | c :: cs =>
    if c.isDigit then
      let p := jparseDigits cs
      (c :: p.1, p.2)
    else ([], c :: cs)

/-- Read a JSON number (integer model: optional minus then digits). -/
def jparseNum : List Char → Option (Json × List Char)
  | [] => none
  | c :: cs =>
    if c = '-' then
      let p := jparseDigits cs
      if p.1.isEmpty then none else some (Json.num (-(digitsVal p.1 : Int)), p.2)
    else
      let p := jparseDigits (c :: cs)
      if p.1.isEmpty then none else some (Json.num (digitsVal p.1 : Int), p.2)

mutual

/-- Read one JSON value; `fuel` bounds the nesting depth. -/
def jparseVal : Nat → List Char → Option (Json × List Char)
  | 0, _ => none
  | fuel + 1, input =>
    match jskipWs input with
    | [] => none
    | c :: cs =>
      if c = quoteChar then (jparseStrBody cs).map fun sr => (Json.str sr.1, sr.2)
      else if c = 't' then (expectChars ['r', 'u', 'e'] cs).map fun r => (Json.bool true, r)
      else if c = 'f' then (expectChars ['a', 'l', 's', 'e'] cs).map fun r => (Json.bool false, r)
      else if c = 'n' then (expectChars ['u', 'l', 'l'] cs).map fun r => (Json.null, r)
      else if c = '[' then
        match jskipWs cs with
        | [] => none
        | d :: r =>
          if d = ']' then some (Json.arr [], r)
          else (jparseItems fuel (d :: r)).map fun xr => (Json.arr xr.1, xr.2)
      else if c = lbraceChar then
        match jskipWs cs with
        | [] => none
        | d :: r =>
          if d = rbraceChar then some (Json.obj [], r)
          else (jparseFields fuel (d :: r)).map fun fr => (Json.obj fr.1, fr.2)
      else jparseNum (c :: cs)

/-- Read the comma-separated items of a non-empty JSON array, up to and
including the closing bracket. -/
def jparseItems : Nat → List Char → Option (List Json × List Char)
  | 0, _ => none
  | fuel + 1, input =>
    match jparseVal fuel input with
    | none => none
    | some (j, r) =>
      match jskipWs r with
      | [] => none
      | d :: r2 =>
        if d = ',' then (jparseItems fuel r2).map fun xr => (j :: xr.1, xr.2)
        else if d = ']' then some ([j], r2)
        else none

/-- Read the members of a non-empty JSON object, up to and including
the closing brace. -/
def jparseFields : Nat → List Char → Option (List (String × Json) × List Char)
  | 0, _ => none
  | fuel + 1, input =>
    match jskipWs input with
    | [] => none
    | c :: cs =>
      if c = quoteChar then
        match jparseStrBody cs with
        | none => none
        | some (k, r) =>
          match jskipWs r with
          | [] => none
          | d :: r2 =>
            if d = ':' then
              match jparseVal fuel r2 with
              | none => none
              | some (v, r3) =>
                match jskipWs r3 with
                | [] => none
                | d2 :: r4 =>
                  if d2 = ',' then (jparseFields fuel r4).map fun fr => ((k, v) :: fr.1, fr.2)
                  else if d2 = rbraceChar then some ([(k, v)], r4)
                  else none
            else none
      else none

end

/-- Model of `JSON.parse`: parse one value and require only trailing
whitespace after it.  (Error messages are representative; the source
only ever propagates them into its own wrapper.) -/
def jsonParseModel (t : String) : Except String Json :=
  match jparseVal (t.length + 1) t.toList with
  | some (j, rest) =>
    if jskipWs rest = [] then Except.ok j
    else Except.error "Unexpected non-whitespace character after JSON data"
  | none => Except.error "Unexpected end of JSON input"

/-- First binding of a key in a parsed object. -/
def lookupField : List (String × Json) → String → Option Json
  | [], _ => none
  | (k, v) :: rest, key => if k = key then some v else lookupField rest key

/-- Whether a JSON value is a string. -/
def isStrJson : Json → Bool
  | Json.str _ => true
  | _ => false

/-- Whether a JSON value is one of the `trendLevel` enum strings. -/
def isTrendStr : Json → Bool
  | Json.str s => s = "Classic" || s = "Trending" || s = "Bold"
  | _ => false

/-- The `recommendations` item schema of the request configuration. -/
def matchesRecSchema : Json → Bool
  | Json.obj fs =>
      (lookupField fs "id").any isStrJson &&
      (lookupField fs "name").any isStrJson &&
      (lookupField fs "description").any isStrJson &&
      (lookupField fs "whyItWorks").any isStrJson &&
      (lookupField fs "trendLevel").any isTrendStr
  | _ => false

/-- Whether a JSON value is an array of schema-conforming
recommendations. -/
def isRecArray : Json → Bool
  | Json.arr xs => xs.all matchesRecSchema
  | _ => false

/-- The `responseSchema` of `analyzePhoto`'s request configuration, as
a check on a parsed JSON value. -/
def matchesAnalysisSchema : Json → Bool
  | Json.obj fs =>
      (lookupField fs "faceShape").any isStrJson &&
      (lookupField fs "hairTexture").any isStrJson &&
      (lookupField fs "recommendations").any isRecArray
  | _ => false

/-- The empty-payload message thrown inside the try block. -/
def emptyResponseMsg : String := "Empty response from AI engine."

/-- The wrapper prepended by the catch block. -/
def parseFailWrap : String := "Analysis failed to parse: "

/-- The response handling of `analyzePhoto`, over the settled provider
response: `respText` is `response.text` (`none` for an absent payload;
the empty string is also falsy in `if (!text)`), and `jsonParse` is the
JSON parser in use.  The empty-payload error is thrown inside the try
block, so the catch wraps it exactly like a parse failure; a
successfully parsed value is returned with an unchecked cast — no
schema validation happens. -/
def analyzePhotoResult (jsonParse : String → Except String Json)
    (respText : Option String) : Except String Json :=
  match respText with
  | none => Except.error (parseFailWrap ++ emptyResponseMsg)
  | some t =>
    if t = "" then Except.error (parseFailWrap ++ emptyResponseMsg)
    else
      match jsonParse t with
      | Except.ok j => Except.ok j
      | Except.error m => Except.error (parseFailWrap ++ m)

/-! ## Concrete fixtures used by witnesses and counterexamples -/

/-- A concrete recommendation. -/
def recA : HairstyleRecommendation :=
  { id := "a", name := "Pompadour", description := "High volume front",
    whyItWorks := "Balances the jawline", trendLevel := TrendLevel.Classic }

/-- A second concrete recommendation. -/
def recB : HairstyleRecommendation :=
  { id := "b", name := "Buzz", description := "Close crop",
    whyItWorks := "Accentuates symmetry", trendLevel := TrendLevel.Trending }

/-- A concrete analysis result with two recommendations. -/
def analysisEx : AnalysisResult :=
  { faceShape := "Oval", hairTexture := "Wavy", recommendations := [recA, recB] }

/-- A synthesis outcome map where only `recA` succeeds. -/
def synthEx : HairstyleRecommendation → Except String String :=
  fun r => if r.id = "a" then Except.ok "data:image/png;base64,AAA" else Except.error "boom"

/-- A synthesis outcome map where every call fails. -/
def synthFailEx : HairstyleRecommendation → Except String String :=
  fun _ => Except.error "boom"

/-- The generated style produced for `recA` under `synthEx`. -/
def gExA : GeneratedStyle := { style := recA, imageUrl := "data:image/png;base64,AAA" }

/-- A concrete inline-data part whose declared media type is JPEG. -/
def inlineEx : InlineData := { mimeType := "image/jpeg", data := "IMG" }

/-- A concrete provider response whose first candidate has a text-only
part followed by the JPEG inline-data part `inlineEx`. -/
def respEx : GenerateContentResponse :=
  { candidates := [{ content := some { parts :=
      [{ inlineData := none }, { inlineData := some inlineEx }] } }] }

/-! # Theorems -/

/-! ## Helper lemmas about the synthesis aggregation -/

/-- The map-then-filter of the source equals a single `filterMap`. -/
theorem runSynthesis_eq_filterMap (synth : HairstyleRecommendation → Except String String)
    (recs : List HairstyleRecommendation) :
    runSynthesis synth recs = recs.filterMap fun rec =>
      match synth rec with
      | Except.ok url => some { style := rec, imageUrl := url }
      | Except.error _ => none := by
  unfold runSynthesis
  rw [List.filterMap_map]
  rfl

/-- The styles of the aggregated results are exactly the successful
recommendations, in order. -/
theorem runSynthesis_styles (synth : HairstyleRecommendation → Except String String)
    (recs : List HairstyleRecommendation) :
    (runSynthesis synth recs).map GeneratedStyle.style
      = recs.filter fun r => exceptOk (synth r) := by
  rw [runSynthesis_eq_filterMap]
  induction recs with
  | nil => rfl
  | cons r rs ih =>
    rw [List.filterMap_cons, List.filter_cons]
    cases h : synth r with
    | ok url => simp [exceptOk, h, ih]
    | error e => simp [exceptOk, h, ih]

/-- The aggregate has one entry per successful synthesis call. -/
theorem runSynthesis_length (synth : HairstyleRecommendation → Except String String)
    (recs : List HairstyleRecommendation) :
    (runSynthesis synth recs).length = countSuccess synth recs := by
  have h := congrArg List.length (runSynthesis_styles synth recs)
  simpa [countSuccess] using h

/-- Every aggregated entry records the success of its own call. -/
theorem runSynthesis_mem (synth : HairstyleRecommendation → Except String String)
    (recs : List HairstyleRecommendation) (g : GeneratedStyle)
    (hg : g ∈ runSynthesis synth recs) : synth g.style = Except.ok g.imageUrl := by
  rw [runSynthesis_eq_filterMap] at hg
  obtain ⟨r, hmem, hr⟩ := List.mem_filterMap.mp hg
  cases h : synth r with
  | ok url =>
    rw [h] at hr
    obtain rfl := Option.some.inj hr
    exact h
  | error e =>
    rw [h] at hr
    simp at hr

/-- `processImage` on a successful analysis, reduced to its branches. -/
theorem processImage_ok_reduce (s : AppState) (a : AnalysisResult)
    (synth : HairstyleRecommendation → Except String String) (av : Bool) :
    processImage s (Except.ok a) synth av =
      if (runSynthesis synth a.recommendations).length = 0 then
        (handleApiError
          { s with error := none, analysis := some a, step := AppStep.GENERATING }
          couldNotGenerateMsg av).1
      else
        { s with
            error := none
            analysis := some a
            results := runSynthesis synth a.recommendations
            step := AppStep.RESULT } := rfl

/-- A list of synthesis-issue events is untouched by the synthesis
filter. -/
theorem filter_synthIssue_map (img : String) (recs : List HairstyleRecommendation) :
    ((recs.map fun rec => CallEvent.synthIssue img rec.name).filter isSynthIssue)
      = recs.map fun rec => CallEvent.synthIssue img rec.name := by
  induction recs with
  | nil => rfl
  | cons r rs ih => simp [isSynthIssue, ih]

/-! ## Claim theorems -/

/-- C3: if the analysis succeeds with recommendations of which exactly
K synthesis calls succeed, 0 < K < N, then the stored result sequence
has exactly K entries, its entries are the GeneratedStyle values of the
successful calls in the original recommendation order, and the session
step becomes RESULT. -/
theorem processImage_partial_success (s : AppState) (a : AnalysisResult)
    (synth : HairstyleRecommendation → Except String String) (av : Bool)
    (hK : 0 < countSuccess synth a.recommendations)
    (_hKN : countSuccess synth a.recommendations < a.recommendations.length) :
    (processImage s (Except.ok a) synth av).results.length
        = countSuccess synth a.recommendations ∧
    (processImage s (Except.ok a) synth av).results.map GeneratedStyle.style
        = a.recommendations.filter (fun r => exceptOk (synth r)) ∧
    (∀ g ∈ (processImage s (Except.ok a) synth av).results,
        synth g.style = Except.ok g.imageUrl) ∧
    (processImage s (Except.ok a) synth av).step = AppStep.RESULT := by
  have hlen := runSynthesis_length synth a.recommendations
  have hne : ¬ (runSynthesis synth a.recommendations).length = 0 := by omega
  rw [processImage_ok_reduce, if_neg hne]
  refine ⟨hlen, runSynthesis_styles synth a.recommendations, ?_, rfl⟩
  intro g hg
  exact runSynthesis_mem synth a.recommendations g hg

/-- Witness for C3: with `analysisEx` (two recommendations) and
`synthEx` (only the first succeeds), K = 1 of N = 2, the stored styles
are exactly the successful recommendation and the step is RESULT. -/
theorem processImage_partial_success_witness :
    0 < countSuccess synthEx analysisEx.recommendations ∧
    countSuccess synthEx analysisEx.recommendations < analysisEx.recommendations.length ∧
    (processImage initialState (Except.ok analysisEx) synthEx true).results.map
        GeneratedStyle.style
      = analysisEx.recommendations.filter (fun r => exceptOk (synthEx r)) ∧
    (processImage initialState (Except.ok analysisEx) synthEx true).step
      = AppStep.RESULT := by
  have h := processImage_partial_success initialState analysisEx synthEx true
    (by decide) (by decide)
  exact ⟨by decide, by decide, h.2.1, h.2.2.2⟩

/-- C4: if the analysis succeeds but zero synthesis calls succeed
(including the case of zero recommendations), the run is treated as a
failure: the generic error message is surfaced, the results field is
left untouched (never set to a non-empty value by this run), and the
step returns to UPLOAD. -/
theorem processImage_all_synth_failed (s : AppState) (a : AnalysisResult)
    (synth : HairstyleRecommendation → Except String String) (av : Bool)
    (h0 : countSuccess synth a.recommendations = 0) :
    (processImage s (Except.ok a) synth av).step = AppStep.UPLOAD ∧
    (processImage s (Except.ok a) synth av).error = some genericErrorMsg ∧
    (processImage s (Except.ok a) synth av).results = s.results := by
  have hlen := runSynthesis_length synth a.recommendations
  have hz : (runSynthesis synth a.recommendations).length = 0 := by omega
  have hcred : isCredentialFailure couldNotGenerateMsg = false := by decide
  rw [processImage_ok_reduce, if_pos hz]
  simp [handleApiError, hcred]

/-- Witness for C4: with `analysisEx` and `synthFailEx` every synthesis
call fails; the step is UPLOAD, the generic message is surfaced and the
results stay empty. -/
theorem processImage_all_synth_failed_witness :
    countSuccess synthFailEx analysisEx.recommendations = 0 ∧
    (processImage initialState (Except.ok analysisEx) synthFailEx true).step
      = AppStep.UPLOAD ∧
    (processImage initialState (Except.ok analysisEx) synthFailEx true).error
      = some genericErrorMsg ∧
    (processImage initialState (Except.ok analysisEx) synthFailEx true).results = [] := by
  have h := processImage_all_synth_failed initialState analysisEx synthFailEx true (by decide)
  exact ⟨by decide, h.1, h.2.1, h.2.2⟩

/-- C5: when the analysis settles successfully with N recommendations,
exactly N synthesis calls are issued — one per recommendation, passing
the same source image and that recommendation's name, in order — and
every synthesis issue event sits strictly after the analysis completion
event (which is at index 1 of the trace). -/
theorem processImage_fanout_schedule (img : String) (a : AnalysisResult) :
    (processImageCallTrace img (Except.ok a)).filter isSynthIssue
        = a.recommendations.map (fun rec => CallEvent.synthIssue img rec.name) ∧
    ((processImageCallTrace img (Except.ok a)).filter isSynthIssue).length
        = a.recommendations.length ∧
    (processImageCallTrace img (Except.ok a))[1]?
        = some (CallEvent.analysisDone (Except.ok a)) ∧
    ∀ k e, (processImageCallTrace img (Except.ok a))[k]? = some e →
      isSynthIssue e = true → 1 < k := by
  have h1 : (processImageCallTrace img (Except.ok a)).filter isSynthIssue
      = a.recommendations.map (fun rec => CallEvent.synthIssue img rec.name) := by
    simp [processImageCallTrace, isSynthIssue, filter_synthIssue_map]
  refine ⟨h1, ?_, ?_, ?_⟩
  · rw [h1]
    simp
  · simp [processImageCallTrace]
  · intro k e hk hs
    rcases k with _ | k1
    · simp only [processImageCallTrace, List.getElem?_cons_zero,
        Option.some.injEq] at hk
      subst hk
      simp [isSynthIssue] at hs
    · rcases k1 with _ | n
      · simp only [processImageCallTrace, List.getElem?_cons_succ,
          List.getElem?_cons_zero, Option.some.injEq] at hk
        subst hk
        simp [isSynthIssue] at hs
      · omega

/-- Witness for C5: for `analysisEx` the issued synthesis calls are
exactly one per recommendation with the source image and the
recommendation names, and the synthesis issue at index 2 is strictly
after the analysis completion at index 1. -/
theorem processImage_fanout_schedule_witness :
    (processImageCallTrace "IMG" (Except.ok analysisEx)).filter isSynthIssue
        = [CallEvent.synthIssue "IMG" "Pompadour", CallEvent.synthIssue "IMG" "Buzz"] ∧
    1 < 2 := by
  have h := processImage_fanout_schedule "IMG" analysisEx
  constructor
  · rw [h.1]
    rfl
  · exact h.2.2.2 2 (CallEvent.synthIssue "IMG" "Pompadour") rfl rfl

/-- C6: a remote-call failure whose message contains one of the
credential markers (`Requested entity was not found`, `API_KEY`,
`403`) is classified as a credential error: the dedicated message is
surfaced and the remediation call is made when the host provides it;
any other failure gets the generic message and no remediation; in both
cases the step is set to UPLOAD. -/
theorem handleApiError_classification (s : AppState) (msg : String) (av : Bool) :
    (handleApiError s msg av).1.step = AppStep.UPLOAD ∧
    ((strIncludes msg "Requested entity was not found" || strIncludes msg "API_KEY" ||
        strIncludes msg "403") = true →
      (handleApiError s msg av).1.error = some credentialErrorMsg ∧
      (handleApiError s msg av).2 = av) ∧
    ((strIncludes msg "Requested entity was not found" || strIncludes msg "API_KEY" ||
        strIncludes msg "403") = false →
      (handleApiError s msg av).1.error = some genericErrorMsg ∧
      (handleApiError s msg av).2 = false) := by
  cases h : isCredentialFailure msg with
  | true =>
    refine ⟨?_, fun _ => ?_, fun hfalse => ?_⟩
    · simp [handleApiError, h]
    · simp [handleApiError, h]
    · rw [isCredentialFailure] at h
      rw [h] at hfalse
      cases hfalse
  | false =>
    refine ⟨?_, fun htrue => ?_, fun _ => ?_⟩
    · simp [handleApiError, h]
    · rw [isCredentialFailure] at h
      rw [h] at htrue
      cases htrue
    · simp [handleApiError, h]

/-- Witness for C6: the message `HTTP 403 Forbidden` contains the
marker `403`; it is classified as a credential error, the remediation
call is made (host available), and the step is UPLOAD. -/
theorem handleApiError_classification_witness :
    (strIncludes "HTTP 403 Forbidden" "Requested entity was not found" ||
      strIncludes "HTTP 403 Forbidden" "API_KEY" ||
      strIncludes "HTTP 403 Forbidden" "403") = true ∧
    (handleApiError initialState "HTTP 403 Forbidden" true).1.error
      = some credentialErrorMsg ∧
    (handleApiError initialState "HTTP 403 Forbidden" true).2 = true ∧
    (handleApiError initialState "HTTP 403 Forbidden" true).1.step = AppStep.UPLOAD := by
  have h := handleApiError_classification initialState "HTTP 403 Forbidden" true
  have hm : (strIncludes "HTTP 403 Forbidden" "Requested entity was not found" ||
      strIncludes "HTTP 403 Forbidden" "API_KEY" ||
      strIncludes "HTTP 403 Forbidden" "403") = true := by decide
  exact ⟨hm, (h.2.1 hm).1, (h.2.1 hm).2, h.1⟩

/-- C1 (code bug): the source has no staleness guard — `processImage`'s
resumptions write session state unconditionally — so when `reset` runs
while a run's calls are outstanding, the late-arriving completions
overwrite the post-reset session: after the schedule run-start, reset,
stale analysis completion, stale join completion, the state holds the
stale run's analysis and results and sits in RESULT instead of the
reset state. -/
theorem stale_run_corrupts_new_session :
    (appRun resetState [AppEvent.runStart, AppEvent.resetClick,
        AppEvent.runAnalysisOk analysisEx, AppEvent.runJoin [some gExA]]).step
      = AppStep.RESULT ∧
    (appRun resetState [AppEvent.runStart, AppEvent.resetClick,
        AppEvent.runAnalysisOk analysisEx, AppEvent.runJoin [some gExA]]).analysis
      = some analysisEx ∧
    (appRun resetState [AppEvent.runStart, AppEvent.resetClick,
        AppEvent.runAnalysisOk analysisEx, AppEvent.runJoin [some gExA]]).results
      = [gExA] ∧
    resetState.step = AppStep.UPLOAD ∧
    resetState.analysis = none ∧
    resetState.results = [] := by
  exact ⟨rfl, rfl, rfl, rfl, rfl, rfl⟩

/-- C2 (code bug): the camera-view dismiss button only runs
`setShowCamera(false)`; after opening the camera successfully and
dismissing without capture, the view is left but the stream's tracks
are still live — the release happens only on the capture path. -/
theorem camera_dismiss_keeps_tracks_live :
    (dismissCameraView (startCamera
        { showCamera := false, streamTracksLive := false } true)).showCamera = false ∧
    (dismissCameraView (startCamera
        { showCamera := false, streamTracksLive := false } true)).streamTracksLive = true ∧
    (capturePhotoCamera (startCamera
        { showCamera := false, streamTracksLive := false } true)).streamTracksLive
      = false := by
  exact ⟨rfl, rfl, rfl⟩

/-- C8: a file whose declared media type does not start with `image/`
is rejected: the invalid-file error is set, no decode or processing
action is started, and the step is left unchanged (in particular it
does not move away from UPLOAD). -/
theorem handleFile_rejects_non_image (s : AppState) (f : JsFile)
    (h : strStarts f.type "image/" = false) :
    (handleFile s f).1.step = s.step ∧
    (handleFile s f).1.error = some invalidFileMsg ∧
    (handleFile s f).2 = [] := by
  simp [handleFile, h]

/-- Witness for C8: a `text/plain` file is rejected from the initial
(UPLOAD) state with no started action. -/
theorem handleFile_rejects_non_image_witness :
    (strStarts "text/plain" "image/" = false) ∧
    (handleFile initialState { type := "text/plain" }).1.step = initialState.step ∧
    (handleFile initialState { type := "text/plain" }).1.error = some invalidFileMsg ∧
    (handleFile initialState { type := "text/plain" }).2 = [] := by
  have h := handleFile_rejects_non_image initialState { type := "text/plain" } (by decide)
  exact ⟨by decide, h.1, h.2.1, h.2.2⟩

/-- C9: for any video dimensions, `capturePhoto` crops a square region
of side `min(videoWidth, videoHeight)` centred in the frame (equal
margins on both sides of each axis), and encodes a square output as
JPEG at the fixed quality 0.9. -/
theorem capturePhoto_square_centered (w h : ℕ) :
    (capturePhotoCrop w h).cropSize = min w h ∧
    2 * (capturePhotoCrop w h).cropX + ((capturePhotoCrop w h).cropSize : ℚ) = (w : ℚ) ∧
    2 * (capturePhotoCrop w h).cropY + ((capturePhotoCrop w h).cropSize : ℚ) = (h : ℚ) ∧
    (capturePhotoCrop w h).outWidth = (capturePhotoCrop w h).outHeight ∧
    (capturePhotoCrop w h).format = "image/jpeg" ∧
    (capturePhotoCrop w h).quality = 9 / 10 := by
  have key : ∀ (q c : ℚ), 2 * ((q - c) / 2) + c = q := by
    intro q c
    ring
  exact ⟨rfl, key _ _, key _ _, rfl, rfl, rfl⟩

/-- C10: whenever `transformHairstyle` returns successfully, the value
is the fixed `data:image/png;base64,` label concatenated with the data
of the first part carrying inline data in the first candidate — the
PNG label is attached without consulting the part's declared media
type. -/
theorem transformHairstyle_png_label (resp : GenerateContentResponse) (out : String)
    (h : transformHairstyleResult resp = Except.ok out) :
    ∃ p d, firstInlinePart resp = some p ∧ p.inlineData = some d ∧
      out = "data:image/png;base64," ++ d.data := by
  cases hfp : firstInlinePart resp with
  | none =>
    simp only [transformHairstyleResult, hfp] at h
    cases h
  | some p =>
    cases hd : p.inlineData with
    | none =>
      simp only [transformHairstyleResult, hfp, hd] at h
      cases h
    | some d =>
      simp only [transformHairstyleResult, hfp, hd, Except.ok.injEq] at h
      exact ⟨p, d, rfl, hd, h.symm⟩

/-- Witness for C10: in `respEx` the inline-data part declares media
type `image/jpeg`, yet the returned value carries the PNG label. -/
theorem transformHairstyle_png_label_witness :
    transformHairstyleResult respEx
      = Except.ok ("data:image/png;base64," ++ "IMG") ∧
    inlineEx.mimeType = "image/jpeg" ∧
    (∃ p d, firstInlinePart respEx = some p ∧ p.inlineData = some d ∧
      ("data:image/png;base64," ++ "IMG" : String) = "data:image/png;base64," ++ d.data) := by
  exact ⟨rfl, rfl, transformHairstyle_png_label respEx ("data:image/png;base64," ++ "IMG") rfl⟩

/-- C7 counterexample: the payload `[]` is valid JSON that does not
match the AnalysisResult schema, yet `analyzePhoto` returns it as a
success instead of failing with a parse error — the parsed value is
never validated against the schema. -/
theorem analyzePhoto_schema_not_checked :
    analyzePhotoResult jsonParseModel (some "[]") = Except.ok (Json.arr []) ∧
    matchesAnalysisSchema (Json.arr []) = false := by
  exact ⟨rfl, rfl⟩

/-- C7 amended: `analyzePhoto` fails with the (wrapped) empty-response
message when the provider's response carries no payload, fails with the
wrapped parse message when the payload is not valid JSON, and returns
any successfully parsed JSON value as-is, without checking it against
the AnalysisResult schema. -/
theorem analyzePhoto_error_paths (jp : String → Except String Json) (t : String) :
    analyzePhotoResult jp none = Except.error (parseFailWrap ++ emptyResponseMsg) ∧
    analyzePhotoResult jp (some "") = Except.error (parseFailWrap ++ emptyResponseMsg) ∧
    (∀ m, t ≠ "" → jp t = Except.error m →
      analyzePhotoResult jp (some t) = Except.error (parseFailWrap ++ m)) ∧
    (∀ j, t ≠ "" → jp t = Except.ok j →
      analyzePhotoResult jp (some t) = Except.ok j) := by
  refine ⟨rfl, rfl, ?_, ?_⟩
  · intro m ht hm
    simp [analyzePhotoResult, ht, hm]
  · intro j ht hj
    simp [analyzePhotoResult, ht, hj]

/-- Witness for C7 (amended): a missing payload and the invalid JSON
payload `[` both produce wrapped errors, and the valid payload `7`
parses and is returned unvalidated. -/
theorem analyzePhoto_error_paths_witness :
    analyzePhotoResult jsonParseModel none
      = Except.error (parseFailWrap ++ emptyResponseMsg) ∧
    ("[" ≠ "") ∧
    jsonParseModel "[" = Except.error "Unexpected end of JSON input" ∧
    analyzePhotoResult jsonParseModel (some "[")
      = Except.error (parseFailWrap ++ "Unexpected end of JSON input") ∧
    jsonParseModel "7" = Except.ok (Json.num 7) ∧
    analyzePhotoResult jsonParseModel (some "7") = Except.ok (Json.num 7) := by
  have h1 := analyzePhoto_error_paths jsonParseModel "["
  have h2 := analyzePhoto_error_paths jsonParseModel "7"
  refine ⟨h1.1, by decide, rfl, ?_, rfl, ?_⟩
  · exact h1.2.2.1 "Unexpected end of JSON input" (by decide) rfl
  · exact h2.2.2.2 (Json.num 7) (by decide) rfl

end GregBarber
